import Mathlib

/-!
Shallow embedding of the Twitter-clone backend (src/backend/app/app.py,
src/backend/app/models.py, src/backend/app/schemas.py).

Modelling conventions:
- Each SQLAlchemy table (models.py) becomes a structure; the whole database
  is a `Store` of row lists in table order, plus autoincrement counters for
  the integer primary keys.
- Each FastAPI handler (app.py) becomes a pure function
  `Store → params → Store × HResponse`.  The `api-key` header is an
  `Option String` (absent header = `none`).  The dependency
  `get_current_user` is evaluated first and its value passed to the handler,
  exactly as FastAPI injects it.
- Python exceptions are modelled as the error branches the code actually
  takes: every handler body is wrapped in `try/except Exception`, and
  `fastapi.HTTPException` is a subclass of `Exception`, so every raise
  inside a handler body is caught by its own `except` clause and turned
  into the 200-status JSON envelope
  `(result: false, error_type: server_error, error_message: str(e))`.
  `str(HTTPException(c, d))` is modelled as `httpErrStr c d`; the Python
  `AttributeError` raised when the swallowed-auth dict (or `None`) is used
  as an object is modelled by `attributeErrorMsg`.
- `scalar_one_or_none` returns `Except`: `.error` models the
  `MultipleResultsFound` exception when more than one row matches.
- `await session.delete(tweet)` follows the SQLAlchemy ORM cascade rules of
  models.py: the `like` relationship carries `cascade="all, delete-orphan"`
  so the Tweet's Like rows are deleted; the `media` relationship has the
  default cascade, so the ORM disassociates the Media children by setting
  their `tweet_id` foreign key to NULL at flush time.
-/

namespace TClone

/-- Row of table `users` (models.py, class User). -/
structure User where
  id : Nat
  name : String
  api_key : String
deriving Repr, DecidableEq

/-- Row of table `tweets` (models.py, class Tweet). -/
structure Tweet where
  id : Nat
  content_text : String
  owner_id : Nat
deriving Repr, DecidableEq

/-- Row of table `medias` (models.py, class Media); `data` is the raw bytes. -/
structure Media where
  id : Nat
  data : List Nat
  file_name : String
  tweet_id : Option Nat
deriving Repr, DecidableEq

/-- Row of table `likes` (models.py, class Like). -/
structure Like where
  id : Nat
  user_id : Nat
  tweet_id : Nat
deriving Repr, DecidableEq

/-- Row of table `followers` (models.py, class Follower). -/
structure Follower where
  id : Nat
  follower_id : Nat
  following_id : Nat
deriving Repr, DecidableEq

/-- The relational store: the five tables plus the autoincrement counters
for the integer primary keys generated on insert. -/
structure Store where
  users : List User
  tweets : List Tweet
  medias : List Media
  likes : List Like
  followers : List Follower
  nextTweetId : Nat
  nextMediaId : Nat
  nextLikeId : Nat
  nextFollowerId : Nat
deriving Repr, DecidableEq

/-- JSON values, used for response bodies. -/
inductive Json where
  | null : Json
  | bool (b : Bool) : Json
  | nat (n : Nat) : Json
  | str (s : String) : Json
  | arr (xs : List Json) : Json
  | obj (fields : List (String × Json)) : Json
deriving Repr

/-- An HTTP response: either a JSON body (FastAPI serialises a returned
dict with status 200) or a raw-bytes `Response` with a media type. -/
inductive HResponse where
  | json (status : Nat) (body : Json) : HResponse
  | bytes (status : Nat) (media_type : String) (data : List Nat) : HResponse
deriving Repr

/-- `str(HTTPException(code, detail))` (starlette renders it as
`code: detail`). -/
def httpErrStr (code : Nat) (detail : String) : String :=
  toString code ++ ": " ++ detail

/-- Message of the Python `AttributeError` raised when attribute `attr` is
read on a value of type `ty` that lacks it (the exact Python wording is
immaterial; only the fact that a server error with some message results). -/
def attributeErrorMsg (ty attr : String) : String :=
  ty ++ " object has no attribute " ++ attr

/-- The uniform error envelope every handler's `except Exception` clause
returns: a plain dict, hence serialised by FastAPI with HTTP status 200. -/
def errorEnvelope (msg : String) : HResponse :=
  .json 200 (.obj [("result", .bool false),
                   ("error_type", .str "server_error"),
                   ("error_message", .str msg)])

/-- SQLAlchemy `Result.scalar_one_or_none()`: `none` for zero rows, the row
for exactly one, and the `MultipleResultsFound` exception otherwise. -/
def scalar_one_or_none {α : Type} : List α → Except String (Option α)
  | [] => .ok none
  | [a] => .ok (some a)
  | _ => .error "Multiple rows were found when one or none was required"

/-- What the `get_current_user` dependency hands to a handler: either the
resolved `User`, or — because its own `except Exception` clause catches the
403 `HTTPException` it just raised (and any store exception) — the error
dict itself, which FastAPI then injects as `current_user`. -/
inductive AuthValue where
  | user (u : User) : AuthValue
  | errDict (msg : String) : AuthValue
deriving Repr, DecidableEq

/-- app.py `get_current_user` (lines 20-40): select the User whose
`api_key` equals the header value; raise 403 on no match, but the raise is
swallowed by the function's own `except Exception`, which returns the error
dict instead. An absent header (`none`) matches no stored key. -/
def get_current_user (s : Store) (api_key : Option String) : AuthValue :=
  match scalar_one_or_none (s.users.filter (fun u => api_key == some u.api_key)) with
  | .error e => .errDict e
  | .ok none => .errDict (httpErrStr 403 "Invalid API Key")
  | .ok (some u) => .user u

/-- Success body of `create_tweet`. -/
def tweetCreated (tid : Nat) : HResponse :=
  .json 200 (.obj [("result", .bool true), ("tweet_id", .nat tid)])

/-- One iteration of the attachment loop: the UPDATE setting `tweet_id` of
the row with primary key `mid` to the new tweet id. -/
def attachOne (tid mid : Nat) (ms : List Media) : List Media :=
  ms.map (fun m => if m.id == mid then { m with tweet_id := some tid } else m)

/-- The ORM disassociation performed when a Tweet is deleted: every Media
child still referencing it has its `tweet_id` set to NULL. -/
def detachTweet (tid : Nat) (ms : List Media) : List Media :=
  ms.map (fun m => if m.tweet_id == some tid then { m with tweet_id := none } else m)

/-- The media-attachment loop of `create_tweet` (app.py lines 69-83): for
each id in order, select the Media row; if found, set its `tweet_id` to the
new Tweet's id and commit (each iteration commits separately); if absent,
roll back (nothing is pending — the previous commits stand) and raise 404,
which the handler's `except` turns into the envelope, short-circuiting the
remaining ids. -/
def attachMedias (tid : Nat) : Store → List Nat → Store × HResponse
  | s, [] => (s, tweetCreated tid)
  | s, mid :: rest =>
    match scalar_one_or_none (s.medias.filter (fun m => m.id == mid)) with
    | .error e => (s, errorEnvelope e)
    | .ok none => (s, errorEnvelope (httpErrStr 404 "Media not found"))
    | .ok (some _) =>
        attachMedias tid { s with medias := attachOne tid mid s.medias } rest

/-- app.py `create_tweet` (lines 54-91): build the Tweet row
(`owner_id=current_user.id` raises `AttributeError` when the dependency
returned the error dict, before anything is inserted), insert and commit
it, then run the attachment loop over `tweet_media_ids` when present. -/
def create_tweet (s : Store) (auth : AuthValue) (tweet_data : String)
    (tweet_media_ids : Option (List Nat)) : Store × HResponse :=
  match auth with
  | .errDict _ => (s, errorEnvelope (attributeErrorMsg "dict" "id"))
  | .user u =>
    let tid := s.nextTweetId
    let s1 : Store := { s with
      tweets := s.tweets ++ [{ id := tid, content_text := tweet_data, owner_id := u.id }],
      nextTweetId := tid + 1 }
    match tweet_media_ids with
    | none => (s1, tweetCreated tid)
    | some ids => attachMedias tid s1 ids

/-- Python `pathlib.Path(name).suffix` (external stdlib), approximated:
the final dot-extension of the filename. No claim depends on its value. -/
def lastElem : List String → String
  | [] => ""
  | [e] => e
  | _ :: b :: rest => lastElem (b :: rest)

/-- See `lastElem`. -/
def pathSuffix (nm : String) : String :=
  match nm.splitOn "." with
  | [] => ""
  | [_] => ""
  | l => "." ++ lastElem l

/-- app.py `create_media` (lines 94-123): reject content types outside
the allow-list with a 400 raise (swallowed into the envelope); otherwise
store the bytes under a generated unique filename (`uuid4()` is external
randomness, passed in as `uuid`) with `tweet_id` unset. The handler body
never reads `current_user`, so the auth value is irrelevant to it. -/
def create_media (s : Store) (_auth : AuthValue) (content_type file_name uuid : String)
    (file_data : List Nat) : Store × HResponse :=
  if (["image/jpeg", "image/png", "image/jpg"].contains content_type) = false then
    (s, errorEnvelope (httpErrStr 400 "Invalid file type. Only JPEG and PNG are allowed."))
  else
    let m : Media := { id := s.nextMediaId, data := file_data,
                       file_name := uuid ++ pathSuffix file_name, tweet_id := none }
    ({ s with medias := s.medias ++ [m], nextMediaId := s.nextMediaId + 1 },
     .json 200 (.obj [("result", .bool true), ("media_id", .nat m.id)]))

/-- app.py `get_media_by_id` (lines 126-148): public (no auth dependency);
select the Media row by id; absent raises 404 (swallowed into the
envelope); present returns `Response(content=row.data,
media_type="image/png")`. -/
def get_media_by_id (s : Store) (id : Nat) : Store × HResponse :=
  match scalar_one_or_none (s.medias.filter (fun m => m.id == id)) with
  | .error e => (s, errorEnvelope e)
  | .ok none => (s, errorEnvelope (httpErrStr 404 "Media not found"))
  | .ok (some m) => (s, .bytes 200 "image/png" m.data)

/-- app.py `delete_by_id` (lines 151-185): select the Tweet (the 404 raise
on absence happens before `current_user` is touched); on an ownership
match, `await session.delete(tweet)` cascades per models.py — Like rows of
the tweet are deleted (`cascade="all, delete-orphan"`), Media children are
disassociated by nulling their `tweet_id` (default cascade) — and commits;
otherwise raise 403. All raises are swallowed into the envelope. -/
def delete_by_id (s : Store) (auth : AuthValue) (id : Nat) : Store × HResponse :=
  match scalar_one_or_none (s.tweets.filter (fun t => t.id == id)) with
  | .error e => (s, errorEnvelope e)
  | .ok none => (s, errorEnvelope (httpErrStr 404 "Tweet not found"))
  | .ok (some t) =>
    match auth with
    | .errDict _ => (s, errorEnvelope (attributeErrorMsg "dict" "id"))
    | .user u =>
      if t.owner_id == u.id then
        ({ s with
            tweets := s.tweets.filter (fun tw => !(tw.id == t.id)),
            likes := s.likes.filter (fun l => !(l.tweet_id == t.id)),
            medias := detachTweet t.id s.medias },
         .json 200 (.obj [("result", .bool true)]))
      else
        (s, errorEnvelope (httpErrStr 403 "You are not authorized to delete this tweet"))

/-- app.py `likes_tweets` (lines 188-216): select the Tweet (404 raise on
absence, before `current_user` is touched); then insert a Like row
unconditionally — no duplicate check. -/
def likes_tweets (s : Store) (auth : AuthValue) (id : Nat) : Store × HResponse :=
  match scalar_one_or_none (s.tweets.filter (fun t => t.id == id)) with
  | .error e => (s, errorEnvelope e)
  | .ok none => (s, errorEnvelope (httpErrStr 404 "Tweet not found"))
  | .ok (some _) =>
    match auth with
    | .errDict _ => (s, errorEnvelope (attributeErrorMsg "dict" "id"))
    | .user u =>
      ({ s with
          likes := s.likes ++ [{ id := s.nextLikeId, user_id := u.id, tweet_id := id }],
          nextLikeId := s.nextLikeId + 1 },
       .json 200 (.obj [("result", .bool true)]))

/-- app.py `delete_likes_by_id` (lines 219-251): the filter expression
reads `current_user.id` first (AttributeError when auth was swallowed);
`.scalars().first()` takes the first Like row matching
(user_id, tweet_id); 404 raise when none (swallowed); else delete exactly
that row (by its primary key) and commit. -/
def delete_likes_by_id (s : Store) (auth : AuthValue) (id : Nat) : Store × HResponse :=
  match auth with
  | .errDict _ => (s, errorEnvelope (attributeErrorMsg "dict" "id"))
  | .user u =>
    match (s.likes.filter (fun l => l.user_id == u.id && l.tweet_id == id)).head? with
    | none => (s, errorEnvelope (httpErrStr 404 "Like not found"))
    | some l =>
      ({ s with likes := s.likes.filter (fun x => !(x.id == l.id)) },
       .json 200 (.obj [("result", .bool true)]))

/-- app.py `follow_user_by_id` (lines 254-283): select the target User
(404 raise on absence, before `current_user` is touched); then insert a
Follower edge unconditionally — no duplicate or self-follow check. -/
def follow_user_by_id (s : Store) (auth : AuthValue) (id : Nat) : Store × HResponse :=
  match scalar_one_or_none (s.users.filter (fun x => x.id == id)) with
  | .error e => (s, errorEnvelope e)
  | .ok none => (s, errorEnvelope (httpErrStr 404 "User not found"))
  | .ok (some _) =>
    match auth with
    | .errDict _ => (s, errorEnvelope (attributeErrorMsg "dict" "id"))
    | .user u =>
      ({ s with
          followers := s.followers ++
            [{ id := s.nextFollowerId, follower_id := u.id, following_id := id }],
          nextFollowerId := s.nextFollowerId + 1 },
       .json 200 (.obj [("result", .bool true)]))

/-- app.py `delete_follow_by_id` (lines 286-318): the filter reads
`current_user.id` first; `.first()` takes the first matching edge; 404
raise when none (swallowed); else delete that row and commit. -/
def delete_follow_by_id (s : Store) (auth : AuthValue) (id : Nat) : Store × HResponse :=
  match auth with
  | .errDict _ => (s, errorEnvelope (attributeErrorMsg "dict" "id"))
  | .user u =>
    match (s.followers.filter
        (fun f => f.follower_id == u.id && f.following_id == id)).head? with
    | none => (s, errorEnvelope (httpErrStr 404 "Follower not found"))
    | some f =>
      ({ s with followers := s.followers.filter (fun x => !(x.id == f.id)) },
       .json 200 (.obj [("result", .bool true)]))

/-- Inner list of `read_tweets` (app.py lines 346-350): one entry per Like
of the tweet; `like.user` is the scalar relationship to the liking User
(`selectinload(Like.user)`), `None` when the id dangles, in which case
reading `.name` raises `AttributeError`. -/
def likeEntries (s : Store) : List Like → Except String (List Json)
  | [] => .ok []
  | l :: rest =>
    match (s.users.filter (fun u => u.id == l.user_id)).head? with
    | none => .error (attributeErrorMsg "NoneType" "name")
    | some u =>
      match likeEntries s rest with
      | .error e => .error e
      | .ok js => .ok (.obj [("user_id", .nat l.user_id), ("name", .str u.name)] :: js)

/-- Loop body of `read_tweets` (app.py lines 332-362): for each Tweet,
the attached-media URL list (one query per tweet), the like list (one
query per tweet), and the author via `selectinload(Tweet.owner)` (an
`AttributeError` when `owner_id` dangles and the relationship is `None`). -/
def tweetEntry (s : Store) (t : Tweet) : Except String Json :=
  match (s.users.filter (fun u => u.id == t.owner_id)).head? with
  | none => .error (attributeErrorMsg "NoneType" "id")
  | some owner =>
    match likeEntries s (s.likes.filter (fun l => l.tweet_id == t.id)) with
    | .error e => .error e
    | .ok likeList =>
      .ok (.obj
        [("id", .nat t.id),
         ("content", .str t.content_text),
         ("attachments", .arr ((s.medias.filter (fun m => m.tweet_id == some t.id)).map
            (fun m => Json.str ("/api/media/" ++ toString m.id)))),
         ("author", .obj [("id", .nat owner.id), ("name", .str owner.name)]),
         ("likes", .arr likeList)])

/-- The fold of `tweetEntry` over the full tweet list. -/
def tweetEntries (s : Store) : List Tweet → Except String (List Json)
  | [] => .ok []
  | t :: rest =>
    match tweetEntry s t with
    | .error e => .error e
    | .ok j =>
      match tweetEntries s rest with
      | .error e => .error e
      | .ok js => .ok (j :: js)

/-- app.py `read_tweets` (lines 321-373): lists every Tweet with author,
attachment URLs and likes. The handler body never reads `current_user`, so
a swallowed auth error does not make it fail. Read-only. -/
def read_tweets (s : Store) (_auth : AuthValue) : Store × HResponse :=
  match tweetEntries s s.tweets with
  | .error e => (s, errorEnvelope e)
  | .ok entries => (s, .json 200 (.obj [("result", .bool true), ("tweets", .arr entries)]))

/-- Profile dict built by `read_user`/`read_user_by_id` (app.py lines
387-423 and 455-491): follower ids are edges whose `following_id` is the
target, following ids are edges whose `follower_id` is the target; each id
set is resolved to Users via an IN query (store order) and reduced to
(id, name) pairs. -/
def profileJson (s : Store) (user : User) (uid : Nat) : Json :=
  let follower_ids := (s.followers.filter (fun f => f.following_id == uid)).map
    (fun f => f.follower_id)
  let following_ids := (s.followers.filter (fun f => f.follower_id == uid)).map
    (fun f => f.following_id)
  let followers_list := (s.users.filter (fun x => follower_ids.contains x.id)).map
    (fun f => Json.obj [("id", .nat f.id), ("name", .str f.name)])
  let following_list := (s.users.filter (fun x => following_ids.contains x.id)).map
    (fun f => Json.obj [("id", .nat f.id), ("name", .str f.name)])
  .obj [("id", .nat user.id), ("name", .str user.name),
        ("followers", .arr followers_list), ("following", .arr following_list)]

/-- app.py `read_user` (lines 376-434): the self-profile. The body reads
`current_user.id` at once (AttributeError when auth was swallowed);
re-selects the caller's row with no `None` check — were it absent,
`user.id` in the dict raises `AttributeError` (after the edge queries,
which are pure reads). Read-only. -/
def read_user (s : Store) (auth : AuthValue) : Store × HResponse :=
  match auth with
  | .errDict _ => (s, errorEnvelope (attributeErrorMsg "dict" "id"))
  | .user u =>
    match scalar_one_or_none (s.users.filter (fun x => x.id == u.id)) with
    | .error e => (s, errorEnvelope e)
    | .ok none => (s, errorEnvelope (attributeErrorMsg "NoneType" "id"))
    | .ok (some user) =>
      (s, .json 200 (.obj [("result", .bool true), ("user", profileJson s user u.id)]))

/-- app.py `read_user_by_id` (lines 437-502): the by-id profile; 404 raise
when the target User is absent (swallowed into the envelope). The body
never reads `current_user`. Read-only. -/
def read_user_by_id (s : Store) (_auth : AuthValue) (id : Nat) : Store × HResponse :=
  match scalar_one_or_none (s.users.filter (fun x => x.id == id)) with
  | .error e => (s, errorEnvelope e)
  | .ok none => (s, errorEnvelope (httpErrStr 404 "User not found"))
  | .ok (some user) =>
    (s, .json 200 (.obj [("result", .bool true), ("user", profileJson s user id)]))

/-- One inbound HTTP request to any of the eleven endpoints of app.py,
with the value of its `api-key` header (`none` = header absent) and its
path/body parameters. -/
inductive Request where
  | createTweet (apiKey : Option String) (tweet_data : String)
      (tweet_media_ids : Option (List Nat)) : Request
  | createMedia (apiKey : Option String) (content_type file_name uuid : String)
      (file_data : List Nat) : Request
  | getMedia (id : Nat) : Request
  | deleteTweet (apiKey : Option String) (id : Nat) : Request
  | likeTweet (apiKey : Option String) (id : Nat) : Request
  | unlikeTweet (apiKey : Option String) (id : Nat) : Request
  | followUser (apiKey : Option String) (id : Nat) : Request
  | unfollowUser (apiKey : Option String) (id : Nat) : Request
  | readTweets (apiKey : Option String) : Request
  | readMe (apiKey : Option String) : Request
  | readUserById (apiKey : Option String) (id : Nat) : Request
deriving Repr

/-- Dispatch of one request: FastAPI evaluates the `get_current_user`
dependency and injects its value into the handler (GET /api/media/:id has
no auth dependency). -/
def handle (s : Store) : Request → Store × HResponse
  | .createTweet k d mids => create_tweet s (get_current_user s k) d mids
  | .createMedia k ct fn uuid fd => create_media s (get_current_user s k) ct fn uuid fd
  | .getMedia i => get_media_by_id s i
  | .deleteTweet k i => delete_by_id s (get_current_user s k) i
  | .likeTweet k i => likes_tweets s (get_current_user s k) i
  | .unlikeTweet k i => delete_likes_by_id s (get_current_user s k) i
  | .followUser k i => follow_user_by_id s (get_current_user s k) i
  | .unfollowUser k i => delete_follow_by_id s (get_current_user s k) i
  | .readTweets k => read_tweets s (get_current_user s k)
  | .readMe k => read_user s (get_current_user s k)
  | .readUserById k i => read_user_by_id s (get_current_user s k) i

/-- A sequence of requests run against the store. -/
def run (s : Store) : List Request → Store
  | [] => s
  | r :: rs => run (handle s r).1 rs

/-- Characterization helper (not a source translation): the combined
effect on the `medias` table of running the attachment loop over `ids`
when every id is found — each listed row points at the new tweet, every
other row is untouched. The loop `attachMedias` is proved equal to it. -/
def attachList (tid : Nat) (ids : List Nat) (ms : List Media) : List Media :=
  ms.map (fun m => if ids.contains m.id then { m with tweet_id := some tid } else m)

/-- HTTP status of a response. -/
def statusOf : HResponse → Nat
  | .json st _ => st
  | .bytes st _ _ => st

/-- A success-shaped response: either a 200 JSON body whose first field is
`result: true`, or a 200 raw-bytes response. -/
def isOkResp : HResponse → Bool
  | .json st (.obj (("result", .bool true) :: _)) => st == 200
  | .bytes st _ _ => st == 200
  | _ => false

/-- A response is either success-shaped or exactly the uniform 200-status
server-error envelope. -/
def goodOrErr (r : HResponse) : Prop :=
  isOkResp r = true ∨ ∃ m, r = errorEnvelope m

/-! ### Generic list lemmas used to evaluate the SELECT filters -/

lemma filter_nil_of_all_false {α : Type} (p : α → Bool) :
    ∀ l : List α, (∀ x ∈ l, p x = false) → l.filter p = []
  | [], _ => rfl
  | a :: t, h => by
    have ha := h a (List.mem_cons_self a t)
    have ht := filter_nil_of_all_false p t (fun x hx => h x (List.mem_cons_of_mem a hx))
    simp [List.filter_cons, ha, ht]

lemma filter_singleton_of_unique {α : Type} (p : α → Bool) :
    ∀ (l : List α) (a : α), l.Nodup → a ∈ l → p a = true →
      (∀ x ∈ l, p x = true → x = a) → l.filter p = [a]
  | [], a, _, ha, _, _ => absurd ha (List.not_mem_nil a)
  | b :: t, a, hnd, ha, hpa, huniq => by
    rcases List.nodup_cons.mp hnd with ⟨hbt, hndt⟩
    rcases List.mem_cons.mp ha with rfl | hat
    · have ht : t.filter p = [] := by
        apply filter_nil_of_all_false
        intro x hx
        by_contra hpx
        have hx' : p x = true := by
          cases h : p x
          · exact absurd h hpx
          · rfl
        exact hbt (huniq x (List.mem_cons_of_mem _ hx) hx' ▸ hx)
      simp [List.filter_cons, hpa, ht]
    · have hpb : p b = false := by
        cases h : p b
        · rfl
        · exact absurd (huniq b (List.mem_cons_self b t) h ▸ hat) hbt
      have ht := filter_singleton_of_unique p t a hndt hat hpa
        (fun x hx hpx => huniq x (List.mem_cons_of_mem b hx) hpx)
      simp [List.filter_cons, hpb, ht]

/-- A primary-key SELECT: under a Nodup key column, filtering on the key of
a present row returns exactly that row. -/
lemma filter_beq_key {α β : Type} [BEq β] [LawfulBEq β] (f : α → β) (l : List α) (a : α)
    (ha : a ∈ l) (hnd : (l.map f).Nodup) :
    l.filter (fun x => f x == f a) = [a] := by
  apply filter_singleton_of_unique _ _ _ (List.Nodup.of_map f hnd) ha
  · simp
  · intro x hx hpx
    exact List.inj_on_of_nodup_map hnd hx ha (by simpa using hpx)

/-- Flipped-comparison variant, matching the filter written in
`get_current_user`. -/
lemma filter_beq_key_flip {α β : Type} [BEq β] [LawfulBEq β] (f : α → β) (l : List α) (a : α)
    (ha : a ∈ l) (hnd : (l.map f).Nodup) :
    l.filter (fun x => f a == f x) = [a] := by
  apply filter_singleton_of_unique _ _ _ (List.Nodup.of_map f hnd) ha
  · simp
  · intro x hx hpx
    exact List.inj_on_of_nodup_map hnd hx ha (by simpa using (beq_iff_eq.mp hpx).symm)

lemma filter_beq_key_nil {α β : Type} [BEq β] [LawfulBEq β] (f : α → β) (l : List α) (b : β)
    (hb : ∀ x ∈ l, f x ≠ b) : l.filter (fun x => f x == b) = [] := by
  apply filter_nil_of_all_false
  intro x hx
  simpa using hb x hx

/-! ### Structure of the media-attachment loop -/

lemma attachOne_ids (tid mid : Nat) (ms : List Media) :
    (attachOne tid mid ms).map (fun m => m.id) = ms.map (fun m => m.id) := by
  unfold attachOne
  rw [List.map_map]
  apply List.map_congr_left
  intro m _
  by_cases h : m.id = mid <;> simp [h]

lemma attachList_nil (tid : Nat) (ms : List Media) : attachList tid [] ms = ms := by
  unfold attachList
  rw [show (fun m : Media => if List.contains [] m.id then { m with tweet_id := some tid } else m)
        = fun m => m from by funext m; simp]
  exact List.map_id ms

lemma attachList_cons (tid mid : Nat) (rest : List Nat) (ms : List Media) :
    attachList tid rest (attachOne tid mid ms) = attachList tid (mid :: rest) ms := by
  unfold attachList attachOne
  rw [List.map_map]
  apply List.map_congr_left
  intro m _
  by_cases hm : m.id = mid
  · by_cases hr : m.id ∈ rest <;> simp [hm, hr]
  · by_cases hr : m.id ∈ rest <;> simp [hm, hr, Ne.symm hm]

/-- One unfolding step of the attachment loop on a nonempty id list. -/
lemma attachMedias_cons (tid : Nat) (s : Store) (mid : Nat) (rest : List Nat) :
    attachMedias tid s (mid :: rest) =
      match scalar_one_or_none (s.medias.filter (fun m => m.id == mid)) with
      | .error e => (s, errorEnvelope e)
      | .ok none => (s, errorEnvelope (httpErrStr 404 "Media not found"))
      | .ok (some _) => attachMedias tid { s with medias := attachOne tid mid s.medias } rest :=
  rfl

/-- The attachment loop on an all-found id list: it succeeds and its
effect on the store is exactly `attachList` on the `medias` table. -/
lemma attachMedias_all_found (tid : Nat) : ∀ (ids : List Nat) (s : Store),
    (∀ mid ∈ ids, mid ∈ s.medias.map (fun m => m.id)) →
    (s.medias.map (fun m => m.id)).Nodup →
    attachMedias tid s ids =
      ({ s with medias := attachList tid ids s.medias }, tweetCreated tid)
  | [], s, _, _ => by
    rw [attachList_nil]
    rfl
  | mid :: rest, s, hval, hnd => by
    rcases List.mem_map.mp (hval mid (List.mem_cons_self mid rest)) with ⟨m, hm, hmid⟩
    have hfilter : s.medias.filter (fun x => x.id == mid) = [m] := by
      rw [← hmid]
      exact filter_beq_key (fun x => x.id) s.medias m hm hnd
    have step : attachMedias tid s (mid :: rest)
        = attachMedias tid { s with medias := attachOne tid mid s.medias } rest := by
      rw [attachMedias_cons, hfilter]
      rfl
    rw [step,
      attachMedias_all_found tid rest { s with medias := attachOne tid mid s.medias }
        (by
          intro x hx
          rw [show ({ s with medias := attachOne tid mid s.medias } : Store).medias
                = attachOne tid mid s.medias from rfl, attachOne_ids]
          exact hval x (List.mem_cons_of_mem mid hx))
        (by
          rw [show ({ s with medias := attachOne tid mid s.medias } : Store).medias
                = attachOne tid mid s.medias from rfl, attachOne_ids]
          exact hnd)]
    rw [show ({ s with medias := attachOne tid mid s.medias } : Store).medias
          = attachOne tid mid s.medias from rfl, attachList_cons]

/-- The attachment loop on `good ++ bad :: rest` where every id in `good`
is found and `bad` is not: the loop attaches exactly the `good` prefix
(each attachment already committed), then fails with the swallowed 404 —
the remaining ids are never examined. -/
lemma attachMedias_stops (tid bad : Nat) (rest : List Nat) :
    ∀ (good : List Nat) (s : Store),
    (∀ mid ∈ good, mid ∈ s.medias.map (fun m => m.id)) →
    (s.medias.map (fun m => m.id)).Nodup →
    (∀ m ∈ s.medias, m.id ≠ bad) →
    attachMedias tid s (good ++ bad :: rest) =
      ({ s with medias := attachList tid good s.medias },
       errorEnvelope (httpErrStr 404 "Media not found"))
  | [], s, _, _, hbad => by
    have hfilter : s.medias.filter (fun x => x.id == bad) = [] :=
      filter_beq_key_nil (fun x => x.id) s.medias bad hbad
    rw [attachList_nil]
    show attachMedias tid s (bad :: rest) = _
    rw [attachMedias_cons, hfilter]
    rfl
  | mid :: good, s, hval, hnd, hbad => by
    rcases List.mem_map.mp (hval mid (List.mem_cons_self mid good)) with ⟨m, hm, hmid⟩
    have hfilter : s.medias.filter (fun x => x.id == mid) = [m] := by
      rw [← hmid]
      exact filter_beq_key (fun x => x.id) s.medias m hm hnd
    have step : attachMedias tid s ((mid :: good) ++ bad :: rest)
        = attachMedias tid { s with medias := attachOne tid mid s.medias } (good ++ bad :: rest) := by
      rw [List.cons_append, attachMedias_cons, hfilter]
      rfl
    have hids : ({ s with medias := attachOne tid mid s.medias } : Store).medias.map
        (fun m => m.id) = s.medias.map (fun m => m.id) := attachOne_ids tid mid s.medias
    rw [step,
      attachMedias_stops tid bad rest good { s with medias := attachOne tid mid s.medias }
        (by
          intro x hx
          rw [hids]
          exact hval x (List.mem_cons_of_mem mid hx))
        (by rw [hids]; exact hnd)
        (by
          intro x hx
          have : x.id ∈ s.medias.map (fun m => m.id) := by
            rw [← hids]
            exact List.mem_map_of_mem (fun m => m.id) hx
          rcases List.mem_map.mp this with ⟨y, hy, hyx⟩
          rw [← hyx]
          exact hbad y hy)]
    rw [show ({ s with medias := attachOne tid mid s.medias } : Store).medias
          = attachOne tid mid s.medias from rfl, attachList_cons]

/-! ### Frame lemma: no handler ever touches the users table -/

lemma attachMedias_users (tid : Nat) : ∀ (ids : List Nat) (s : Store),
    (attachMedias tid s ids).1.users = s.users
  | [], _ => rfl
  | mid :: rest, s => by
    rw [attachMedias_cons]
    split
    · rfl
    · rfl
    · exact attachMedias_users tid rest _

lemma handle_users (s : Store) (r : Request) : (handle s r).1.users = s.users := by
  cases r with
  | createTweet k d mids =>
    show (create_tweet s (get_current_user s k) d mids).1.users = s.users
    unfold create_tweet
    cases get_current_user s k with
    | errDict m => rfl
    | user u =>
      cases mids with
      | none => rfl
      | some ids => exact attachMedias_users s.nextTweetId ids _
  | createMedia k ct fn uuid fd =>
    show (create_media s (get_current_user s k) ct fn uuid fd).1.users = s.users
    unfold create_media
    split <;> rfl
  | getMedia i =>
    show (get_media_by_id s i).1.users = s.users
    unfold get_media_by_id
    repeat' split
    all_goals rfl
  | deleteTweet k i =>
    show (delete_by_id s (get_current_user s k) i).1.users = s.users
    unfold delete_by_id
    repeat' split
    all_goals rfl
  | likeTweet k i =>
    show (likes_tweets s (get_current_user s k) i).1.users = s.users
    unfold likes_tweets
    repeat' split
    all_goals rfl
  | unlikeTweet k i =>
    show (delete_likes_by_id s (get_current_user s k) i).1.users = s.users
    unfold delete_likes_by_id
    repeat' split
    all_goals rfl
  | followUser k i =>
    show (follow_user_by_id s (get_current_user s k) i).1.users = s.users
    unfold follow_user_by_id
    repeat' split
    all_goals rfl
  | unfollowUser k i =>
    show (delete_follow_by_id s (get_current_user s k) i).1.users = s.users
    unfold delete_follow_by_id
    repeat' split
    all_goals rfl
  | readTweets k =>
    show (read_tweets s (get_current_user s k)).1.users = s.users
    unfold read_tweets
    repeat' split
    all_goals rfl
  | readMe k =>
    show (read_user s (get_current_user s k)).1.users = s.users
    unfold read_user
    repeat' split
    all_goals rfl
  | readUserById k i =>
    show (read_user_by_id s (get_current_user s k) i).1.users = s.users
    unfold read_user_by_id
    repeat' split
    all_goals rfl

/-! ### Shape lemmas: every response is success-shaped or the envelope -/

lemma attachMedias_shape (tid : Nat) : ∀ (ids : List Nat) (s : Store),
    goodOrErr (attachMedias tid s ids).2
  | [], _ => Or.inl rfl
  | mid :: rest, s => by
    rw [attachMedias_cons]
    split
    · exact Or.inr ⟨_, rfl⟩
    · exact Or.inr ⟨_, rfl⟩
    · exact attachMedias_shape tid rest _

lemma create_tweet_shape (s : Store) (a : AuthValue) (d : String)
    (mids : Option (List Nat)) : goodOrErr (create_tweet s a d mids).2 := by
  unfold create_tweet
  cases a with
  | errDict m => exact Or.inr ⟨_, rfl⟩
  | user u =>
    cases mids with
    | none => exact Or.inl rfl
    | some ids => exact attachMedias_shape s.nextTweetId ids _

lemma create_media_shape (s : Store) (a : AuthValue) (ct fn uuid : String)
    (fd : List Nat) : goodOrErr (create_media s a ct fn uuid fd).2 := by
  unfold create_media
  split
  · exact Or.inr ⟨_, rfl⟩
  · exact Or.inl rfl

lemma get_media_by_id_shape (s : Store) (i : Nat) : goodOrErr (get_media_by_id s i).2 := by
  unfold get_media_by_id
  repeat' split
  · exact Or.inr ⟨_, rfl⟩
  · exact Or.inr ⟨_, rfl⟩
  · exact Or.inl rfl

lemma delete_by_id_shape (s : Store) (a : AuthValue) (i : Nat) :
    goodOrErr (delete_by_id s a i).2 := by
  unfold delete_by_id
  repeat' split
  all_goals first | exact Or.inl rfl | exact Or.inr ⟨_, rfl⟩

lemma likes_tweets_shape (s : Store) (a : AuthValue) (i : Nat) :
    goodOrErr (likes_tweets s a i).2 := by
  unfold likes_tweets
  repeat' split
  all_goals first | exact Or.inl rfl | exact Or.inr ⟨_, rfl⟩

lemma delete_likes_by_id_shape (s : Store) (a : AuthValue) (i : Nat) :
    goodOrErr (delete_likes_by_id s a i).2 := by
  unfold delete_likes_by_id
  repeat' split
  all_goals first | exact Or.inl rfl | exact Or.inr ⟨_, rfl⟩

lemma follow_user_by_id_shape (s : Store) (a : AuthValue) (i : Nat) :
    goodOrErr (follow_user_by_id s a i).2 := by
  unfold follow_user_by_id
  repeat' split
  all_goals first | exact Or.inl rfl | exact Or.inr ⟨_, rfl⟩

lemma delete_follow_by_id_shape (s : Store) (a : AuthValue) (i : Nat) :
    goodOrErr (delete_follow_by_id s a i).2 := by
  unfold delete_follow_by_id
  repeat' split
  all_goals first | exact Or.inl rfl | exact Or.inr ⟨_, rfl⟩

lemma read_tweets_shape (s : Store) (a : AuthValue) : goodOrErr (read_tweets s a).2 := by
  unfold read_tweets
  repeat' split
  all_goals first | exact Or.inl rfl | exact Or.inr ⟨_, rfl⟩

lemma read_user_shape (s : Store) (a : AuthValue) : goodOrErr (read_user s a).2 := by
  unfold read_user
  repeat' split
  all_goals first | exact Or.inl rfl | exact Or.inr ⟨_, rfl⟩

lemma read_user_by_id_shape (s : Store) (a : AuthValue) (i : Nat) :
    goodOrErr (read_user_by_id s a i).2 := by
  unfold read_user_by_id
  repeat' split
  all_goals first | exact Or.inl rfl | exact Or.inr ⟨_, rfl⟩

/-! ### Claim theorems -/

/-- C9: For every store state, each of the four GET endpoints — tweet feed
listing, media retrieval by id, self profile, profile by id — leaves all
five tables (users, tweets, medias, likes, followers) unchanged, on both
the success and the failure path: each returns the very store it was
given. -/
theorem c9_get_endpoints_readonly (s : Store) (k : Option String) (i j : Nat) :
    (handle s (.readTweets k)).1 = s ∧ (handle s (.getMedia i)).1 = s ∧
    (handle s (.readMe k)).1 = s ∧ (handle s (.readUserById k j)).1 = s := by
  refine ⟨?_, ?_, ?_, ?_⟩
  · show (read_tweets s (get_current_user s k)).1 = s
    unfold read_tweets
    repeat' split
    all_goals rfl
  · show (get_media_by_id s i).1 = s
    unfold get_media_by_id
    repeat' split
    all_goals rfl
  · show (read_user s (get_current_user s k)).1 = s
    unfold read_user
    repeat' split
    all_goals rfl
  · show (read_user_by_id s (get_current_user s k) j).1 = s
    unfold read_user_by_id
    repeat' split
    all_goals rfl

/-- C10: No operation exposed by the system ever inserts, deletes, or
modifies a User row: after any sequence of requests to the eleven
endpoints, the users table equals its initial contents. -/
theorem c10_users_never_modified : ∀ (rs : List Request) (s : Store),
    (run s rs).users = s.users
  | [], _ => rfl
  | r :: rs, s =>
    (c10_users_never_modified rs (handle s r).1).trans (handle_users s r)

/-- C3: For every endpoint and every input, the response is either
success-shaped or exactly the uniform HTTP-200 envelope
(result: false, error_type: server_error, error_message: some string) —
in particular every input on which a handler body raises (including the
explicit NotFound/Forbidden/InvalidInput raises, which the body's own
`except Exception` catches) produces exactly that envelope shape. -/
theorem c3_error_envelope_uniform (s : Store) (r : Request) :
    isOkResp (handle s r).2 = true ∨ ∃ m, (handle s r).2 = errorEnvelope m := by
  cases r with
  | createTweet k d mids => exact create_tweet_shape s (get_current_user s k) d mids
  | createMedia k ct fn uuid fd =>
    exact create_media_shape s (get_current_user s k) ct fn uuid fd
  | getMedia i => exact get_media_by_id_shape s i
  | deleteTweet k i => exact delete_by_id_shape s (get_current_user s k) i
  | likeTweet k i => exact likes_tweets_shape s (get_current_user s k) i
  | unlikeTweet k i => exact delete_likes_by_id_shape s (get_current_user s k) i
  | followUser k i => exact follow_user_by_id_shape s (get_current_user s k) i
  | unfollowUser k i => exact delete_follow_by_id_shape s (get_current_user s k) i
  | readTweets k => exact read_tweets_shape s (get_current_user s k)
  | readMe k => exact read_user_shape s (get_current_user s k)
  | readUserById k i => exact read_user_by_id_shape s (get_current_user s k) i

/-- C1, counterexample: the claim says a request whose api-key matches no
stored User fails with HTTP status 403 when the lookup executes cleanly.
In the code the 403 `HTTPException` is raised inside `get_current_user`'s
own `try/except Exception`, which catches it and returns the error dict;
the endpoint then fails on `current_user.id` and answers with the
HTTP-200 envelope. Concretely: one user holds key `k1`, tweet 1 exists,
and a like request with key `bad` yields status 200 (not 403) and the
envelope. -/
theorem c1_counterexample :
    statusOf (handle ⟨[⟨1, "alice", "k1"⟩], [⟨1, "hi", 1⟩], [], [], [], 2, 1, 1, 1⟩
        (.likeTweet (some "bad") 1)).2 = 200 ∧
    (handle ⟨[⟨1, "alice", "k1"⟩], [⟨1, "hi", 1⟩], [], [], [], 2, 1, 1, 1⟩
        (.likeTweet (some "bad") 1)).2 = errorEnvelope (attributeErrorMsg "dict" "id") :=
  ⟨rfl, rfl⟩

/-- C1, amended: for every request whose api-key header matches no stored
User's key (or is absent), `get_current_user` does not fail the operation
with HTTP 403 — it returns the swallowed-error payload (carrying the 403
detail string) as the injected dependency value, so the operation proceeds
and reports failure through the 200-status envelope; for every request
whose header equals some User's api_key byte-exactly (keys being unique),
it resolves exactly that User as the caller identity. -/
theorem c1_amended_auth_gate (s : Store) (k : Option String) :
    ((∀ u ∈ s.users, some u.api_key ≠ k) →
       get_current_user s k = .errDict (httpErrStr 403 "Invalid API Key")) ∧
    (∀ u : User, u ∈ s.users → (s.users.map (fun x => x.api_key)).Nodup →
       k = some u.api_key → get_current_user s k = .user u) := by
  constructor
  · intro hnone
    unfold get_current_user
    rw [show s.users.filter (fun u => k == some u.api_key) = [] from
      filter_nil_of_all_false _ s.users
        (fun x hx => beq_eq_false_iff_ne.mpr (Ne.symm (hnone x hx)))]
    rfl
  · intro u hu hnd hk
    subst hk
    unfold get_current_user
    rw [show s.users.filter (fun x => some u.api_key == some x.api_key) = [u] from
      filter_beq_key_flip (fun x => (some x.api_key : Option String)) s.users u hu
        (by
          rw [show (fun x : User => (some x.api_key : Option String))
                = (fun y : String => (some y : Option String)) ∘ (fun x : User => x.api_key)
              from rfl, ← List.map_map]
          exact hnd.map (Option.some_injective String))]
    rfl

/-- C1 witness: on the one-user store, key `bad` gets the swallowed-403
error dict and key `k1` resolves exactly user 1. -/
theorem c1_amended_auth_gate_witness :
    get_current_user ⟨[⟨1, "alice", "k1"⟩], [], [], [], [], 1, 1, 1, 1⟩ (some "bad")
        = .errDict (httpErrStr 403 "Invalid API Key") ∧
    get_current_user ⟨[⟨1, "alice", "k1"⟩], [], [], [], [], 1, 1, 1, 1⟩ (some "k1")
        = .user ⟨1, "alice", "k1"⟩ :=
  ⟨(c1_amended_auth_gate ⟨[⟨1, "alice", "k1"⟩], [], [], [], [], 1, 1, 1, 1⟩
      (some "bad")).1 (by decide),
   (c1_amended_auth_gate ⟨[⟨1, "alice", "k1"⟩], [], [], [], [], 1, 1, 1, 1⟩
      (some "k1")).2 ⟨1, "alice", "k1"⟩ (by decide) (by decide) rfl⟩

/-- C4: For every authenticated tweet-creation request whose media ids all
refer to existing Media rows, the operation succeeds returning the new
Tweet's id; the final `medias` table is the pointwise update attaching
exactly the listed rows to the new Tweet (the loop processes them in the
supplied order, committing one by one) and leaving every other row
untouched; with a fresh tweet id, a row ends attached to the new Tweet iff
its id was listed. Second block: an attachment failure short-circuits the
remaining ids — on `good ++ bad :: rest` with `bad` unmatched, only the
`good` prefix is attached and `rest` is never examined. -/
theorem c4_create_tweet_all_found :
    (∀ (s : Store) (u : User) (d : String) (ids : List Nat),
      (∀ mid ∈ ids, mid ∈ s.medias.map (fun m => m.id)) →
      ((s.medias.map (fun m => m.id)).Nodup) →
      (∀ m ∈ s.medias, m.tweet_id ≠ some s.nextTweetId) →
      create_tweet s (.user u) d (some ids) =
        ({ s with
            tweets := s.tweets ++ [{ id := s.nextTweetId, content_text := d, owner_id := u.id }],
            nextTweetId := s.nextTweetId + 1,
            medias := attachList s.nextTweetId ids s.medias },
         tweetCreated s.nextTweetId) ∧
      (∀ m ∈ attachList s.nextTweetId ids s.medias,
         (m.tweet_id = some s.nextTweetId ↔ m.id ∈ ids))) ∧
    (∀ (s : Store) (u : User) (d : String) (good : List Nat) (bad : Nat) (rest : List Nat),
      (∀ mid ∈ good, mid ∈ s.medias.map (fun m => m.id)) →
      ((s.medias.map (fun m => m.id)).Nodup) →
      (∀ m ∈ s.medias, m.id ≠ bad) →
      create_tweet s (.user u) d (some (good ++ bad :: rest)) =
        ({ s with
            tweets := s.tweets ++ [{ id := s.nextTweetId, content_text := d, owner_id := u.id }],
            nextTweetId := s.nextTweetId + 1,
            medias := attachList s.nextTweetId good s.medias },
         errorEnvelope (httpErrStr 404 "Media not found"))) := by
  constructor
  · intro s u d ids hval hnd hfresh
    constructor
    · exact attachMedias_all_found s.nextTweetId ids
        { s with
          tweets := s.tweets ++ [{ id := s.nextTweetId, content_text := d, owner_id := u.id }],
          nextTweetId := s.nextTweetId + 1 } hval hnd
    · intro m hm
      rcases List.mem_map.mp hm with ⟨m0, hm0, rfl⟩
      by_cases hc : m0.id ∈ ids
      · simp [hc]
      · simp [hc, hfresh m0 hm0]
  · intro s u d good bad rest hval hnd hbad
    exact attachMedias_stops s.nextTweetId bad rest good
      { s with
        tweets := s.tweets ++ [{ id := s.nextTweetId, content_text := d, owner_id := u.id }],
        nextTweetId := s.nextTweetId + 1 } hval hnd hbad

/-- C4 witness: two stored media, both listed in reversed order; the
theorem instantiates on the concrete store. -/
theorem c4_create_tweet_all_found_witness :
    (∀ mid ∈ [2, 1], mid ∈
        (([⟨1, [7], "a", none⟩, ⟨2, [8], "b", none⟩] : List Media).map (fun m => m.id))) ∧
    ((([⟨1, [7], "a", none⟩, ⟨2, [8], "b", none⟩] : List Media).map (fun m => m.id)).Nodup) ∧
    (create_tweet ⟨[⟨1, "alice", "k1"⟩], [], [⟨1, [7], "a", none⟩, ⟨2, [8], "b", none⟩],
          [], [], 1, 3, 1, 1⟩ (.user ⟨1, "alice", "k1"⟩) "hi" (some [2, 1]) =
        ({ (⟨[⟨1, "alice", "k1"⟩], [], [⟨1, [7], "a", none⟩, ⟨2, [8], "b", none⟩],
              [], [], 1, 3, 1, 1⟩ : Store) with
            tweets := [] ++ [{ id := 1, content_text := "hi", owner_id := 1 }],
            nextTweetId := 1 + 1,
            medias := attachList 1 [2, 1] [⟨1, [7], "a", none⟩, ⟨2, [8], "b", none⟩] },
         tweetCreated 1) ∧
      ∀ m ∈ attachList 1 [2, 1] [⟨1, [7], "a", none⟩, ⟨2, [8], "b", none⟩],
        (m.tweet_id = some 1 ↔ m.id ∈ [2, 1])) :=
  ⟨by decide, by decide,
   c4_create_tweet_all_found.1
     ⟨[⟨1, "alice", "k1"⟩], [], [⟨1, [7], "a", none⟩, ⟨2, [8], "b", none⟩], [], [], 1, 3, 1, 1⟩
     ⟨1, "alice", "k1"⟩ "hi" [2, 1] (by decide) (by decide) (by decide)⟩

/-- C2, counterexample: the claim says a creation request listing at least
one invalid media id leaves none of the listed Media rows attached to the
new Tweet. In the code each attachment is committed before the next id is
examined, and the rollback on the invalid id cannot undo those commits:
with media 1 stored and the list (1, 2) where id 2 is absent, media 1 ends
attached to new tweet 1 while the operation reports the swallowed-404
failure and the Tweet stays persisted. -/
theorem c2_counterexample :
    (handle ⟨[⟨1, "alice", "k1"⟩], [], [⟨1, [7], "f.png", none⟩], [], [], 1, 2, 1, 1⟩
        (.createTweet (some "k1") "hi" (some [1, 2]))).1.medias
      = [⟨1, [7], "f.png", some 1⟩] ∧
    (handle ⟨[⟨1, "alice", "k1"⟩], [], [⟨1, [7], "f.png", none⟩], [], [], 1, 2, 1, 1⟩
        (.createTweet (some "k1") "hi" (some [1, 2]))).1.tweets
      = [⟨1, "hi", 1⟩] ∧
    (handle ⟨[⟨1, "alice", "k1"⟩], [], [⟨1, [7], "f.png", none⟩], [], [], 1, 2, 1, 1⟩
        (.createTweet (some "k1") "hi" (some [1, 2]))).2
      = errorEnvelope (httpErrStr 404 "Media not found") :=
  ⟨rfl, rfl, rfl⟩

/-- C2, amended: for an authenticated creation request whose media-id
list splits as `good ++ bad :: rest` with every id of `good` stored and
`bad` not stored, the operation is reported failed with the envelope
carrying the NotFound detail, the Tweet row created in step 1 remains
persisted, and exactly the ids of the `good` prefix (already committed
one by one) end attached to the new Tweet — the invalid id and everything
after it are not attached, but the prefix is, so "none of the listed rows
attached" holds only when the first listed id is already invalid. -/
theorem c2_amended_committed_attachments (s : Store) (u : User) (d : String)
    (good : List Nat) (bad : Nat) (rest : List Nat)
    (hval : ∀ mid ∈ good, mid ∈ s.medias.map (fun m => m.id))
    (hnd : (s.medias.map (fun m => m.id)).Nodup)
    (hbad : ∀ m ∈ s.medias, m.id ≠ bad) :
    create_tweet s (.user u) d (some (good ++ bad :: rest)) =
      ({ s with
          tweets := s.tweets ++ [{ id := s.nextTweetId, content_text := d, owner_id := u.id }],
          nextTweetId := s.nextTweetId + 1,
          medias := attachList s.nextTweetId good s.medias },
       errorEnvelope (httpErrStr 404 "Media not found")) := by
  exact attachMedias_stops s.nextTweetId bad rest good
    { s with
      tweets := s.tweets ++ [{ id := s.nextTweetId, content_text := d, owner_id := u.id }],
      nextTweetId := s.nextTweetId + 1 } hval hnd hbad

/-- C2 witness: store with media 1 only; list (1, 2): the good prefix (1)
is attached, the operation fails, the tweet stays. -/
theorem c2_amended_committed_attachments_witness :
    (∀ mid ∈ [1], mid ∈ (([⟨1, [7], "f.png", none⟩] : List Media).map (fun m => m.id))) ∧
    ((([⟨1, [7], "f.png", none⟩] : List Media).map (fun m => m.id)).Nodup) ∧
    (∀ m ∈ ([⟨1, [7], "f.png", none⟩] : List Media), m.id ≠ 2) ∧
    create_tweet ⟨[⟨1, "alice", "k1"⟩], [], [⟨1, [7], "f.png", none⟩], [], [], 1, 2, 1, 1⟩
        (.user ⟨1, "alice", "k1"⟩) "hi" (some ([1] ++ 2 :: [])) =
      ({ (⟨[⟨1, "alice", "k1"⟩], [], [⟨1, [7], "f.png", none⟩], [], [], 1, 2, 1, 1⟩ : Store) with
          tweets := [] ++ [{ id := 1, content_text := "hi", owner_id := 1 }],
          nextTweetId := 1 + 1,
          medias := attachList 1 [1] [⟨1, [7], "f.png", none⟩] },
       errorEnvelope (httpErrStr 404 "Media not found")) :=
  ⟨by decide, by decide, by decide,
   c2_amended_committed_attachments
     ⟨[⟨1, "alice", "k1"⟩], [], [⟨1, [7], "f.png", none⟩], [], [], 1, 2, 1, 1⟩
     ⟨1, "alice", "k1"⟩ "hi" [1] 2 [] (by decide) (by decide) (by decide)⟩

/-- C8: a tweet-creation request listing a media id whose row already
carries a non-null `tweet_id` referencing another Tweet succeeds and
silently reassigns that row to the new Tweet (its `tweet_id` becomes the
new id, no longer the old one): the attachment loop performs no
is-unattached or ownership check — it overwrites `tweet_id`
unconditionally on any found row. -/
theorem c8_attach_reassigns_media (s : Store) (u : User) (d : String) (m : Media) (old : Nat)
    (hm : m ∈ s.medias) (hnd : (s.medias.map (fun x => x.id)).Nodup)
    (_hatt : m.tweet_id = some old) (hold : old ≠ s.nextTweetId) :
    create_tweet s (.user u) d (some [m.id]) =
      ({ s with
          tweets := s.tweets ++ [{ id := s.nextTweetId, content_text := d, owner_id := u.id }],
          nextTweetId := s.nextTweetId + 1,
          medias := attachList s.nextTweetId [m.id] s.medias },
       tweetCreated s.nextTweetId) ∧
    { m with tweet_id := some s.nextTweetId } ∈ attachList s.nextTweetId [m.id] s.medias ∧
    ({ m with tweet_id := some s.nextTweetId } : Media).tweet_id ≠ some old := by
  refine ⟨?_, ?_, by simpa using fun h => hold h.symm⟩
  · exact attachMedias_all_found s.nextTweetId [m.id]
      { s with
        tweets := s.tweets ++ [{ id := s.nextTweetId, content_text := d, owner_id := u.id }],
        nextTweetId := s.nextTweetId + 1 }
      (by
        intro mid hmid
        rcases List.mem_cons.mp hmid with rfl | h
        · exact List.mem_map_of_mem (fun x => x.id) hm
        · exact absurd h (List.not_mem_nil mid))
      hnd
  · have : ({ m with tweet_id := some s.nextTweetId } : Media)
        = (if [m.id].contains m.id then { m with tweet_id := some s.nextTweetId } else m) := by
      simp
    rw [this]
    exact List.mem_map_of_mem _ hm

/-- C8 witness: media 1 already attached to tweet 7; creating tweet 2
listing media 1 reassigns it. -/
theorem c8_attach_reassigns_media_witness :
    (⟨1, [7], "f.png", some 7⟩ : Media) ∈
        ([⟨1, [7], "f.png", some 7⟩] : List Media) ∧
    ((([⟨1, [7], "f.png", some 7⟩] : List Media).map (fun x => x.id)).Nodup) ∧
    (⟨1, [7], "f.png", some 7⟩ : Media).tweet_id = some 7 ∧ (7 : Nat) ≠ 2 ∧
    (create_tweet ⟨[⟨1, "alice", "k1"⟩], [⟨7, "old", 1⟩], [⟨1, [7], "f.png", some 7⟩],
          [], [], 2, 2, 1, 1⟩ (.user ⟨1, "alice", "k1"⟩) "hi" (some [1]) =
        ({ (⟨[⟨1, "alice", "k1"⟩], [⟨7, "old", 1⟩], [⟨1, [7], "f.png", some 7⟩],
              [], [], 2, 2, 1, 1⟩ : Store) with
            tweets := [⟨7, "old", 1⟩] ++ [{ id := 2, content_text := "hi", owner_id := 1 }],
            nextTweetId := 2 + 1,
            medias := attachList 2 [1] [⟨1, [7], "f.png", some 7⟩] },
         tweetCreated 2) ∧
      (⟨1, [7], "f.png", some 2⟩ : Media) ∈ attachList 2 [1] [⟨1, [7], "f.png", some 7⟩] ∧
      ((⟨1, [7], "f.png", some 2⟩ : Media)).tweet_id ≠ some 7) :=
  ⟨by decide, by decide, by decide, by decide,
   c8_attach_reassigns_media
     ⟨[⟨1, "alice", "k1"⟩], [⟨7, "old", 1⟩], [⟨1, [7], "f.png", some 7⟩], [], [], 2, 2, 1, 1⟩
     ⟨1, "alice", "k1"⟩ "hi" ⟨1, [7], "f.png", some 7⟩ 7
     (by decide) (by decide) (by decide) (by decide)⟩


/-- C6, counterexample: the claim says retrieving an absent Media id fails
with NotFound carried as HTTP 404; in the code the 404 raise sits inside
the handler's `try/except Exception`, so the caller receives HTTP 200 with
the uniform envelope instead. Concretely, on an empty store, media id 1. -/
theorem c6_counterexample :
    statusOf (handle ⟨[], [], [], [], [], 1, 1, 1, 1⟩ (.getMedia 1)).2 = 200 ∧
    (handle ⟨[], [], [], [], [], 1, 1, 1, 1⟩ (.getMedia 1)).2
      = errorEnvelope (httpErrStr 404 "Media not found") :=
  ⟨rfl, rfl⟩

/-- C6, amended: media retrieval by id needs no authentication and leaves
the store unchanged; if no Media row has the id, it fails with the
HTTP-200 server-error envelope carrying the NotFound (404) detail (not an
actual 404 status); if one exists, the response carries exactly the
stored raw bytes with content type image/png regardless of the upload
content type or stored filename extension. -/
theorem c6_amended_media_retrieval (s : Store) (id : Nat) :
    ((∀ m ∈ s.medias, m.id ≠ id) →
       get_media_by_id s id = (s, errorEnvelope (httpErrStr 404 "Media not found"))) ∧
    (∀ m : Media, m ∈ s.medias → (s.medias.map (fun x => x.id)).Nodup →
       get_media_by_id s m.id = (s, .bytes 200 "image/png" m.data)) := by
  constructor
  · intro habs
    unfold get_media_by_id
    rw [filter_beq_key_nil (fun x => x.id) s.medias id habs]
    rfl
  · intro m hm hnd
    unfold get_media_by_id
    rw [filter_beq_key (fun x => x.id) s.medias m hm hnd]
    rfl

/-- C6 witness: empty store misses id 1; one-media store serves the bytes
as image/png although the stored filename says `.gif`. -/
theorem c6_amended_media_retrieval_witness :
    (∀ m ∈ ([] : List Media), m.id ≠ 1) ∧
    get_media_by_id ⟨[], [], [], [], [], 1, 1, 1, 1⟩ 1
      = (⟨[], [], [], [], [], 1, 1, 1, 1⟩, errorEnvelope (httpErrStr 404 "Media not found")) ∧
    (⟨1, [9, 9], "f.gif", none⟩ : Media) ∈
      ([⟨1, [9, 9], "f.gif", none⟩] : List Media) ∧
    get_media_by_id ⟨[], [], [⟨1, [9, 9], "f.gif", none⟩], [], [], 1, 2, 1, 1⟩ 1
      = (⟨[], [], [⟨1, [9, 9], "f.gif", none⟩], [], [], 1, 2, 1, 1⟩,
         .bytes 200 "image/png" [9, 9]) :=
  ⟨by decide,
   (c6_amended_media_retrieval ⟨[], [], [], [], [], 1, 1, 1, 1⟩ 1).1 (by decide),
   by decide,
   (c6_amended_media_retrieval ⟨[], [], [⟨1, [9, 9], "f.gif", none⟩], [], [], 1, 2, 1, 1⟩ 1).2
     ⟨1, [9, 9], "f.gif", none⟩ (by decide) (by decide)⟩


/-- C5, counterexample: the claim says Media rows referencing a deleted
Tweet keep their (now dangling) tweet_id. SQLAlchemy's default relationship
cascade on `Tweet.media` instead disassociates the children at flush: the
awaited `session.delete` loads them and their `tweet_id` is set to NULL.
Concretely: user 1 owns tweet 1 with media 1 attached and one like; after
the owner's delete, the media row carries `tweet_id = none`, not
`some 1`. -/
theorem c5_counterexample :
    (handle ⟨[⟨1, "A", "k1"⟩], [⟨1, "t", 1⟩], [⟨1, [7], "f", some 1⟩], [⟨1, 1, 1⟩],
        [], 2, 2, 2, 1⟩ (.deleteTweet (some "k1") 1)).1
      = ⟨[⟨1, "A", "k1"⟩], [], [⟨1, [7], "f", none⟩], [], [], 2, 2, 2, 1⟩ ∧
    (handle ⟨[⟨1, "A", "k1"⟩], [⟨1, "t", 1⟩], [⟨1, [7], "f", some 1⟩], [⟨1, 1, 1⟩],
        [], 2, 2, 2, 1⟩ (.deleteTweet (some "k1") 1)).1.medias
      ≠ [⟨1, [7], "f", some 1⟩] :=
  ⟨rfl, by decide⟩

/-- C5, amended: for every tweet-deletion request on an existing Tweet, a
non-owner caller fails with the envelope carrying the Forbidden (403)
detail and the store is unchanged; the owner succeeds: the Tweet row is
deleted, every Like row referencing it is deleted, and every Media row
referencing it has its tweet_id set to NULL by the ORM disassociation
(rather than keeping a dangling reference); a Tweet id matching no row
fails with the envelope carrying the NotFound detail, whatever the auth
outcome was. -/
theorem c5_amended_delete_tweet :
    (∀ (s : Store) (a : AuthValue) (id : Nat), (∀ t ∈ s.tweets, t.id ≠ id) →
      delete_by_id s a id = (s, errorEnvelope (httpErrStr 404 "Tweet not found"))) ∧
    (∀ (s : Store) (u : User) (t : Tweet), t ∈ s.tweets →
      (s.tweets.map (fun x => x.id)).Nodup → t.owner_id ≠ u.id →
      delete_by_id s (.user u) t.id =
        (s, errorEnvelope (httpErrStr 403 "You are not authorized to delete this tweet"))) ∧
    (∀ (s : Store) (u : User) (t : Tweet), t ∈ s.tweets →
      (s.tweets.map (fun x => x.id)).Nodup → t.owner_id = u.id →
      delete_by_id s (.user u) t.id =
        ({ s with
            tweets := s.tweets.filter (fun tw => !(tw.id == t.id)),
            likes := s.likes.filter (fun l => !(l.tweet_id == t.id)),
            medias := detachTweet t.id s.medias },
         .json 200 (.obj [("result", .bool true)]))) := by
  refine ⟨?_, ?_, ?_⟩
  · intro s a id habs
    unfold delete_by_id
    rw [filter_beq_key_nil (fun x => x.id) s.tweets id habs]
    rfl
  · intro s u t ht hnd hown
    unfold delete_by_id
    rw [filter_beq_key (fun x => x.id) s.tweets t ht hnd]
    show (if (t.owner_id == u.id) = true then _ else _) = _
    rw [if_neg]
    simp [hown]
  · intro s u t ht hnd hown
    unfold delete_by_id
    rw [filter_beq_key (fun x => x.id) s.tweets t ht hnd]
    show (if (t.owner_id == u.id) = true then _ else _) = _
    rw [if_pos (by simp [hown])]

/-- C5 witness: all three branches on concrete stores — absent tweet 5,
non-owner caller (user 2 on tweet 1 owned by user 1), then the owner
delete with one like and one attached media. -/
theorem c5_amended_delete_tweet_witness :
    (∀ t ∈ ([⟨1, "t", 1⟩] : List Tweet), t.id ≠ 5) ∧
    delete_by_id ⟨[⟨1, "A", "k1"⟩], [⟨1, "t", 1⟩], [], [], [], 2, 1, 1, 1⟩
        (.user ⟨1, "A", "k1"⟩) 5
      = (⟨[⟨1, "A", "k1"⟩], [⟨1, "t", 1⟩], [], [], [], 2, 1, 1, 1⟩,
         errorEnvelope (httpErrStr 404 "Tweet not found")) ∧
    delete_by_id ⟨[⟨1, "A", "k1"⟩, ⟨2, "B", "k2"⟩], [⟨1, "t", 1⟩], [], [], [], 2, 1, 1, 1⟩
        (.user ⟨2, "B", "k2"⟩) 1
      = (⟨[⟨1, "A", "k1"⟩, ⟨2, "B", "k2"⟩], [⟨1, "t", 1⟩], [], [], [], 2, 1, 1, 1⟩,
         errorEnvelope (httpErrStr 403 "You are not authorized to delete this tweet")) ∧
    delete_by_id ⟨[⟨1, "A", "k1"⟩], [⟨1, "t", 1⟩], [⟨1, [7], "f", some 1⟩], [⟨1, 1, 1⟩],
        [], 2, 2, 2, 1⟩ (.user ⟨1, "A", "k1"⟩) 1
      = ({ (⟨[⟨1, "A", "k1"⟩], [⟨1, "t", 1⟩], [⟨1, [7], "f", some 1⟩], [⟨1, 1, 1⟩],
            [], 2, 2, 2, 1⟩ : Store) with
          tweets := ([⟨1, "t", 1⟩] : List Tweet).filter (fun tw => !(tw.id == 1)),
          likes := ([⟨1, 1, 1⟩] : List Like).filter (fun l => !(l.tweet_id == 1)),
          medias := detachTweet 1 [⟨1, [7], "f", some 1⟩] },
         .json 200 (.obj [("result", .bool true)])) :=
  ⟨by decide,
   c5_amended_delete_tweet.1 ⟨[⟨1, "A", "k1"⟩], [⟨1, "t", 1⟩], [], [], [], 2, 1, 1, 1⟩
     (.user ⟨1, "A", "k1"⟩) 5 (by decide),
   c5_amended_delete_tweet.2.1
     ⟨[⟨1, "A", "k1"⟩, ⟨2, "B", "k2"⟩], [⟨1, "t", 1⟩], [], [], [], 2, 1, 1, 1⟩
     ⟨2, "B", "k2"⟩ ⟨1, "t", 1⟩ (by decide) (by decide) (by decide),
   c5_amended_delete_tweet.2.2
     ⟨[⟨1, "A", "k1"⟩], [⟨1, "t", 1⟩], [⟨1, [7], "f", some 1⟩], [⟨1, 1, 1⟩], [], 2, 2, 2, 1⟩
     ⟨1, "A", "k1"⟩ ⟨1, "t", 1⟩ (by decide) (by decide) (by decide)⟩


/-- Helper: a like on an existing tweet (unique id column) inserts one
Like row with the next primary key, unconditionally. -/
lemma likes_tweets_found (s : Store) (u : User) (t : Tweet)
    (ht : t ∈ s.tweets) (hnd : (s.tweets.map (fun x => x.id)).Nodup) :
    likes_tweets s (.user u) t.id =
      ({ s with
          likes := s.likes ++ [⟨s.nextLikeId, u.id, t.id⟩],
          nextLikeId := s.nextLikeId + 1 },
       .json 200 (.obj [("result", .bool true)])) := by
  unfold likes_tweets
  rw [filter_beq_key (fun x => x.id) s.tweets t ht hnd]
  rfl

/-- Helper: one unfolding step of the unlike handler in the resolved-user
case. -/
lemma delete_likes_by_id_eq (s : Store) (u : User) (id : Nat) :
    delete_likes_by_id s (.user u) id =
      match (s.likes.filter (fun l => l.user_id == u.id && l.tweet_id == id)).head? with
      | none => (s, errorEnvelope (httpErrStr 404 "Like not found"))
      | some l =>
        ({ s with likes := s.likes.filter (fun x => !(x.id == l.id)) },
         .json 200 (.obj [("result", .bool true)])) :=
  rfl

/-- C7: liking an existing Tweet twice by the same user inserts two
distinct Like rows (no duplicate check), and one subsequent Unlike by
that user deletes exactly the first Like row matching
(user_id, tweet_id), leaving the second in place; an Unlike with no
matching row fails with the envelope carrying the NotFound detail. The
store is assumed free of prior likes by this user on this tweet and with
fresh like primary keys. -/
theorem c7_double_like_single_unlike :
    (∀ (s : Store) (u : User) (t : Tweet),
      t ∈ s.tweets → (s.tweets.map (fun x => x.id)).Nodup →
      (∀ l ∈ s.likes, l.user_id ≠ u.id ∨ l.tweet_id ≠ t.id) →
      (∀ l ∈ s.likes, l.id ≠ s.nextLikeId) →
      ((likes_tweets (likes_tweets s (.user u) t.id).1 (.user u) t.id).1.likes
          = s.likes ++ [⟨s.nextLikeId, u.id, t.id⟩, ⟨s.nextLikeId + 1, u.id, t.id⟩]) ∧
      (⟨s.nextLikeId, u.id, t.id⟩ : Like) ≠ ⟨s.nextLikeId + 1, u.id, t.id⟩ ∧
      ((delete_likes_by_id (likes_tweets (likes_tweets s (.user u) t.id).1 (.user u) t.id).1
            (.user u) t.id).1.likes
          = s.likes ++ [⟨s.nextLikeId + 1, u.id, t.id⟩]) ∧
      ((delete_likes_by_id (likes_tweets (likes_tweets s (.user u) t.id).1 (.user u) t.id).1
            (.user u) t.id).2
          = .json 200 (.obj [("result", .bool true)]))) ∧
    (∀ (s : Store) (u : User) (id : Nat),
      (∀ l ∈ s.likes, l.user_id ≠ u.id ∨ l.tweet_id ≠ id) →
      delete_likes_by_id s (.user u) id
        = (s, errorEnvelope (httpErrStr 404 "Like not found"))) := by
  constructor
  · intro s u t ht hnd hno hfresh
    have e1 : (likes_tweets s (.user u) t.id).1
        = { s with
            likes := s.likes ++ [⟨s.nextLikeId, u.id, t.id⟩],
            nextLikeId := s.nextLikeId + 1 } := by
      rw [likes_tweets_found s u t ht hnd]
    have e2 : (likes_tweets (likes_tweets s (.user u) t.id).1 (.user u) t.id).1
        = { s with
            likes := (s.likes ++ [⟨s.nextLikeId, u.id, t.id⟩])
              ++ [⟨s.nextLikeId + 1, u.id, t.id⟩],
            nextLikeId := s.nextLikeId + 1 + 1 } := by
      rw [e1, likes_tweets_found
        { s with
          likes := s.likes ++ [⟨s.nextLikeId, u.id, t.id⟩],
          nextLikeId := s.nextLikeId + 1 } u t ht hnd]
    have hfil : ((s.likes ++ [(⟨s.nextLikeId, u.id, t.id⟩ : Like)])
          ++ [(⟨s.nextLikeId + 1, u.id, t.id⟩ : Like)]).filter
            (fun l => l.user_id == u.id && l.tweet_id == t.id)
        = [(⟨s.nextLikeId, u.id, t.id⟩ : Like), ⟨s.nextLikeId + 1, u.id, t.id⟩] := by
      rw [List.filter_append, List.filter_append]
      rw [filter_nil_of_all_false _ s.likes (by
        intro l hl
        rcases hno l hl with h | h
        · simp [beq_eq_false_iff_ne.mpr h]
        · simp [beq_eq_false_iff_ne.mpr h])]
      simp
    have hkeep : ((s.likes ++ [(⟨s.nextLikeId, u.id, t.id⟩ : Like)])
          ++ [(⟨s.nextLikeId + 1, u.id, t.id⟩ : Like)]).filter
            (fun x => !(x.id == s.nextLikeId))
        = s.likes ++ [(⟨s.nextLikeId + 1, u.id, t.id⟩ : Like)] := by
      rw [List.filter_append, List.filter_append]
      rw [List.filter_eq_self.mpr (fun l hl => by
        simp [beq_eq_false_iff_ne.mpr (hfresh l hl)])]
      simp
    have e3 : delete_likes_by_id (likes_tweets (likes_tweets s (.user u) t.id).1
          (.user u) t.id).1 (.user u) t.id
        = ({ s with
              likes := s.likes ++ [⟨s.nextLikeId + 1, u.id, t.id⟩],
              nextLikeId := s.nextLikeId + 1 + 1 },
           .json 200 (.obj [("result", .bool true)])) := by
      rw [e2, delete_likes_by_id_eq]
      rw [show ({ s with
            likes := (s.likes ++ [⟨s.nextLikeId, u.id, t.id⟩])
              ++ [⟨s.nextLikeId + 1, u.id, t.id⟩],
            nextLikeId := s.nextLikeId + 1 + 1 } : Store).likes
          = (s.likes ++ [⟨s.nextLikeId, u.id, t.id⟩])
              ++ [⟨s.nextLikeId + 1, u.id, t.id⟩] from rfl]
      rw [hfil, List.head?_cons]
      dsimp only
      rw [hkeep]
    refine ⟨?_, by simp, by rw [e3], by rw [e3]⟩
    rw [e2]
    simp
  · intro s u id hno
    have hfil : s.likes.filter (fun l => l.user_id == u.id && l.tweet_id == id) = [] := by
      apply filter_nil_of_all_false
      intro l hl
      rcases hno l hl with h | h
      · simp [beq_eq_false_iff_ne.mpr h]
      · simp [beq_eq_false_iff_ne.mpr h]
    rw [delete_likes_by_id_eq, hfil]
    rfl


/-- C7 witness: user 1 likes tweet 1 twice on an empty likes table (rows
with ids 1 and 2 appear), one unlike removes the first; and an unlike with
no matching row (only a foreign like ⟨5, 2, 9⟩ stored) fails. -/
theorem c7_double_like_single_unlike_witness :
    ((⟨1, "t", 1⟩ : Tweet) ∈ ([⟨1, "t", 1⟩] : List Tweet)) ∧
    ((([⟨1, "t", 1⟩] : List Tweet).map (fun x => x.id)).Nodup) ∧
    (∀ l ∈ ([] : List Like), l.user_id ≠ 1 ∨ l.tweet_id ≠ 1) ∧
    (∀ l ∈ ([] : List Like), l.id ≠ 1) ∧
    (((likes_tweets (likes_tweets ⟨[⟨1, "A", "k1"⟩], [⟨1, "t", 1⟩], [], [], [], 2, 1, 1, 1⟩
          (.user ⟨1, "A", "k1"⟩) 1).1 (.user ⟨1, "A", "k1"⟩) 1).1.likes
        = [⟨1, 1, 1⟩, ⟨2, 1, 1⟩]) ∧
      (⟨1, 1, 1⟩ : Like) ≠ ⟨2, 1, 1⟩ ∧
      ((delete_likes_by_id (likes_tweets
            (likes_tweets ⟨[⟨1, "A", "k1"⟩], [⟨1, "t", 1⟩], [], [], [], 2, 1, 1, 1⟩
              (.user ⟨1, "A", "k1"⟩) 1).1 (.user ⟨1, "A", "k1"⟩) 1).1
            (.user ⟨1, "A", "k1"⟩) 1).1.likes
        = [⟨2, 1, 1⟩]) ∧
      ((delete_likes_by_id (likes_tweets
            (likes_tweets ⟨[⟨1, "A", "k1"⟩], [⟨1, "t", 1⟩], [], [], [], 2, 1, 1, 1⟩
              (.user ⟨1, "A", "k1"⟩) 1).1 (.user ⟨1, "A", "k1"⟩) 1).1
            (.user ⟨1, "A", "k1"⟩) 1).2
        = .json 200 (.obj [("result", .bool true)]))) ∧
    (∀ l ∈ ([⟨5, 2, 9⟩] : List Like), l.user_id ≠ 1 ∨ l.tweet_id ≠ 1) ∧
    (delete_likes_by_id ⟨[⟨1, "A", "k1"⟩], [⟨1, "t", 1⟩], [], [⟨5, 2, 9⟩], [], 2, 1, 6, 1⟩
        (.user ⟨1, "A", "k1"⟩) 1
      = (⟨[⟨1, "A", "k1"⟩], [⟨1, "t", 1⟩], [], [⟨5, 2, 9⟩], [], 2, 1, 6, 1⟩,
         errorEnvelope (httpErrStr 404 "Like not found"))) :=
  ⟨by decide, by decide, by decide, by decide,
   c7_double_like_single_unlike.1
     ⟨[⟨1, "A", "k1"⟩], [⟨1, "t", 1⟩], [], [], [], 2, 1, 1, 1⟩
     ⟨1, "A", "k1"⟩ ⟨1, "t", 1⟩ (by decide) (by decide) (by decide) (by decide),
   by decide,
   c7_double_like_single_unlike.2
     ⟨[⟨1, "A", "k1"⟩], [⟨1, "t", 1⟩], [], [⟨5, 2, 9⟩], [], 2, 1, 6, 1⟩
     ⟨1, "A", "k1"⟩ 1 (by decide)⟩

end TClone
